import Mathlib

/-!
# CI/CD Root Cause Analyzer — verification of the log parser and workflow

Shallow embedding of the two core subsystems of the repository:

* `src/tools/log_parser.py` — the log parsing/classification engine
  (`remove_timestamps`, `classify_error`, `extract_python_stack_trace`,
  `LogParser.parse_content`, and the regex patterns of `LogPatterns`,
  rendered as executable character-list matchers);
* `src/graph/workflow.py` — the pipeline state machine (the five stage
  node functions, the routing functions, and the compiled linear graph),
  with the external collaborators (GitHub fetch, file read, the three
  LLM agents) modelled as `Except`-valued parameters.

Python strings are modelled as Lean `String` / `List Char`; the
line-anchored `re.MULTILINE` patterns are rendered line-by-line (the
whitespace classes are taken within a single line, as in the log inputs
the patterns are written for).
-/

/-! ## Character and string primitives -/

/-- Python `\s` / `str.strip()` whitespace, ASCII fragment. -/
def isPyWs (c : Char) : Bool :=
  c = ' ' || c = '\t' || c = '\n' || c = '\r' || c = '\x0b' || c = '\x0c'

/-- Boolean "is a prefix of" on character lists. -/
def prefixCh : List Char → List Char → Bool
  | [], _ => true
  | _ :: _, [] => false
  | p :: ps, c :: cs => p = c && prefixCh ps cs

/-- Strip a literal prefix, returning the remaining suffix. -/
def stripLit : List Char → List Char → Option (List Char)
  | [], cs => some cs
  | _ :: _, [] => none
  | p :: ps, c :: cs => if p = c then stripLit ps cs else none

/-- Strip a literal prefix case-insensitively (the literal is given
in lower case), as for Python `re.IGNORECASE` literals. -/
def stripLitCi : List Char → List Char → Option (List Char)
  | [], cs => some cs
  | _ :: _, [] => none
  | p :: ps, c :: cs => if p = c.toLower then stripLitCi ps cs else none

/-- `s in t` on character lists (substring containment). -/
def containsSub (hay pat : List Char) : Bool :=
  match hay with
  | [] => prefixCh pat []
  | _ :: rest => prefixCh pat hay || containsSub rest pat

/-- Characters strictly after the end of the first occurrence of `pat`
(the embedding of `re.search` for a literal pattern followed by
`match.end()` slicing). -/
def searchAfter (pat : List Char) : List Char → Option (List Char)
  | [] => stripLit pat []
  | c :: cs =>
    match stripLit pat (c :: cs) with
    | some rest => some rest
    | none => searchAfter pat cs

/-- Python `str.strip()` (both ends). -/
def trimCh (cs : List Char) : List Char :=
  ((cs.dropWhile isPyWs).reverse.dropWhile isPyWs).reverse

/-- Python `str.split('\n')`. -/
def splitLinesCh : List Char → List (List Char)
  | [] => [[]]
  | c :: cs =>
    if c = '\n' then [] :: splitLinesCh cs
    else
      match splitLinesCh cs with
      | [] => [[c]]
      | l :: ls => (c :: l) :: ls

/-- Join lines back with `'\n'` (inverse of `splitLinesCh`). -/
def joinNl : List (List Char) → List Char
  | [] => []
  | [l] => l
  | l :: ls => l ++ '\n' :: joinNl ls

/-- Decimal digits to a natural number (Python `int(...)` on a `\d+` capture). -/
def digitsToNat (ds : List Char) : Nat :=
  ds.foldl (fun n c => n * 10 + (c.toNat - '0'.toNat)) 0

/-- Python `s[:n]`. -/
def takeStr (s : String) (n : Nat) : String := String.mk (s.data.take n)

/-- The capture of `\s*(.+)$` applied to the text after a matched literal:
the greedy `\s*` gives characters back to `.+` only when everything that
remains is whitespace, in which case the capture is the final character. -/
def captureRest (rest : List Char) : Option (List Char) :=
  match rest with
  | [] => none
  | _ :: _ =>
    let t := rest.dropWhile isPyWs
    match t with
    | _ :: _ => some t
    | [] =>
      match rest.reverse with
      | [] => none
      | c :: _ => some [c]

/-! ## Data model (`log_parser.py`) -/

/-- `ErrorCategory` — classification categories for CI/CD errors. -/
inductive ErrorCategory where
  | dependency
  | syntaxErr
  | testFailure
  | configuration
  | build
  | runtime
  | network
  | permission
  | timeoutErr
  | unknown
deriving DecidableEq, Repr

/-- `StackFrame` — a single frame in a stack trace. -/
structure StackFrame where
  file : Option String := none
  line_number : Option Nat := none
  function : Option String := none
  code : Option String := none
deriving DecidableEq, Repr

/-- `ParsedError` — structured representation of an error extracted from logs. -/
structure ParsedError where
  error_type : String
  error_message : String
  error_category : ErrorCategory := .unknown
  failed_step : Option String := none
  exit_code : Option Nat := none
  stack_trace : List String := []
  stack_frames : List StackFrame := []
  relevant_lines : List String := []
  raw_error_block : String := ""
deriving DecidableEq, Repr

/-- `LogParseResult` — complete result of parsing a log file. -/
structure LogParseResult where
  success : Bool
  errors : List ParsedError := []
  primary_error : Option ParsedError := none
  total_lines : Nat := 0
  error_count : Nat := 0
  summary : String := ""
deriving DecidableEq, Repr

/-! ## `LogPatterns` — the regex patterns as executable matchers -/

/-- `TIMESTAMP`: `^\d{4}-\d{2}-\d{2}T\d{2}:\d{2}:\d{2}\.\d+Z\s*`.
Removes the GitHub Actions timestamp prefix of one line
(`LogPatterns.TIMESTAMP.sub('', line)`; the pattern is anchored at the
start, so at most the prefix is removed). -/
def stripTimestampLine (line : List Char) : List Char :=
  let fixedDigits : Nat → List Char → Option (List Char) :=
    fun n cs => (List.range n).foldl
      (fun acc _ => acc.bind fun r =>
        match r with
        | c :: rest => if c.isDigit then some rest else none
        | [] => none) (some cs)
  let lit : Char → List Char → Option (List Char) :=
    fun ch cs => match cs with
      | c :: rest => if c = ch then some rest else none
      | [] => none
  let step : Option (List Char) :=
    (((((((((((fixedDigits 4 line).bind (lit '-')).bind
      (fixedDigits 2)).bind (lit '-')).bind (fixedDigits 2)).bind
      (lit 'T')).bind (fixedDigits 2)).bind (lit ':')).bind
      (fixedDigits 2)).bind (lit ':')).bind (fixedDigits 2)).bind (lit '.')
  match step with
  | none => line
  | some r =>
    let ds := r.takeWhile Char.isDigit
    if ds.isEmpty then line
    else
      match r.drop ds.length with
      | 'Z' :: rest => rest.dropWhile isPyWs
      | _ => line

/-- The alternation of `PYTHON_ERROR`'s recognized exception-type names. -/
def pythonErrorTypes : List String :=
  ["ModuleNotFoundError", "ImportError", "SyntaxError", "IndentationError",
   "TypeError", "ValueError", "KeyError", "AttributeError", "NameError",
   "FileNotFoundError", "RuntimeError", "ZeroDivisionError", "IndexError",
   "AssertionError", "Exception", "OSError", "IOError", "PermissionError",
   "ConnectionError", "TimeoutError"]

/-- `PYTHON_ERROR`: `^(?P<type>(...))\s*:\s*(?P<message>.+)$` on one line.
Returns the type name and the raw (unstripped) message capture. -/
def matchPyErrorLine (line : List Char) : Option (String × List Char) :=
  match pythonErrorTypes.find? (fun t => prefixCh t.data line) with
  | none => none
  | some ty =>
    let r1 := (line.drop ty.length).dropWhile isPyWs
    match r1 with
    | ':' :: r2 =>
      match captureRest r2 with
      | some msg => some (ty, msg)
      | none => none
    | _ => none

/-- `NPM_ERROR`: `^npm ERR!\s*(.+)$` on one line; the raw capture. -/
def npmCapture (line : List Char) : Option (List Char) :=
  match stripLit "npm ERR!".data line with
  | some rest => captureRest rest
  | none => none

/-- `GENERIC_ERROR`: `^(?:Error|ERROR|error):\s*(.+)$` on one line; raw capture. -/
def genericCapture (line : List Char) : Option (List Char) :=
  if prefixCh "Error:".data line || prefixCh "ERROR:".data line
      || prefixCh "error:".data line then
    captureRest (line.drop 6)
  else none

/-- `GH_ERROR`: `##\[error\](.+)$` searched in one line; the capture runs
to the end of the line, so the first occurrence with at least one
character after it yields the (single) match of that line. -/
def ghCapture (line : List Char) : Option (List Char) :=
  match searchAfter "##[error]".data line with
  | some rest => if rest.isEmpty then none else some rest
  | none => none

/-- One attempt of `EXIT_CODE` at a fixed position:
`(?:Process completed with exit code|exit code|Exit code)[:\s]+(\d+)`,
case-insensitive (the third alternative is subsumed by the second). -/
def exitCodeAt (cs : List Char) : Option Nat :=
  let tryLit : List Char → Option Nat := fun rest =>
    let run := rest.takeWhile (fun c => c = ':' || isPyWs c)
    if run.isEmpty then none
    else
      let ds := (rest.drop run.length).takeWhile Char.isDigit
      if ds.isEmpty then none else some (digitsToNat ds)
  match stripLitCi "process completed with exit code".data cs with
  | some rest => tryLit rest
  | none =>
    match stripLitCi "exit code".data cs with
    | some rest => tryLit rest
    | none => none

/-- `EXIT_CODE.search` over the whole cleaned content: leftmost match. -/
def findExitCode : List Char → Option Nat
  | [] => none
  | c :: cs =>
    match exitCodeAt (c :: cs) with
    | some n => some n
    | none => findExitCode cs

/-- `\w` word characters (ASCII fragment). -/
def isWordChar (c : Char) : Bool := c.isAlphanum || c = '_'

def isQuote (c : Char) : Bool := c = '"' || c = '\''

/-- The optional `(?:,\s*in (?P<function>\w+))?` tail of `PYTHON_STACK_FRAME`. -/
def optFrameFunction (cs : List Char) : Option String :=
  match cs with
  | ',' :: r1 =>
    match stripLit "in ".data (r1.dropWhile isPyWs) with
    | some r2 =>
      let ws := r2.takeWhile isWordChar
      if ws.isEmpty then none else some (String.mk ws)
    | none => none
  | _ => none

/-- One attempt of `PYTHON_STACK_FRAME` at a fixed position:
`File ["\'](?P<file>[^"\']+)["\'],\s*line (?P<line>\d+)(?:,\s*in (?P<function>\w+))?`. -/
def frameAt (cs : List Char) : Option StackFrame :=
  match stripLit "File ".data cs with
  | none => none
  | some r0 =>
    match r0 with
    | [] => none
    | q :: r1 =>
      if isQuote q then
        let run := r1.takeWhile (fun c => !(isQuote c))
        if run.isEmpty then none
        else
          match r1.drop run.length with
          | _ :: ',' :: r3 =>
            match stripLit "line ".data (r3.dropWhile isPyWs) with
            | some r4 =>
              let ds := r4.takeWhile Char.isDigit
              if ds.isEmpty then none
              else
                some { file := some (String.mk run),
                       line_number := some (digitsToNat ds),
                       function := optFrameFunction (r4.drop ds.length) }
            | none => none
          | _ => none
      else none

/-- `PYTHON_STACK_FRAME.search` within a stripped line: leftmost match. -/
def frameSearch : List Char → Option StackFrame
  | [] => none
  | c :: cs =>
    match frameAt (c :: cs) with
    | some fr => some fr
    | none => frameSearch cs

/-! ## `classify_error` -/

/-- Lowercase a string the way Python's `str.lower()` does on ASCII. -/
def lowerStr (s : String) : List Char := s.data.map Char.toLower

/-- `x in s` for a lowercase literal `x` against a lowered string. -/
def hasKw (lowered : List Char) (kw : String) : Bool :=
  containsSub lowered kw.data

/-- `classify_error(error_type, error_message)` — the fixed-order keyword
cascade of `log_parser.py`. -/
def classify_error (error_type error_message : String) : ErrorCategory :=
  let t := lowerStr error_type
  let m := lowerStr error_message
  if hasKw t "modulenotfound" || hasKw t "import" || hasKw t "module" then .dependency
  else if hasKw m "cannot find module" then .dependency
  else if hasKw m "no module named" then .dependency
  else if hasKw m "npm err" then .dependency
  else if hasKw t "syntax" || hasKw t "indentation" then .syntaxErr
  else if hasKw t "assertion" then .testFailure
  else if hasKw m "failed" && hasKw m "test" then .testFailure
  else if hasKw t "permission" || hasKw m "permission denied" then .permission
  else if hasKw t "connection" || hasKw t "timeout" || hasKw t "network" then .network
  else if hasKw m "connection refused" || hasKw m "network" || hasKw m "timeout" then .network
  else if hasKw t "filenotfound" then .configuration
  else if hasKw t "type" || hasKw t "value" || hasKw t "key" || hasKw t "attribute"
      || hasKw t "name" || hasKw t "index" then .runtime
  else .unknown

/-! ## `extract_python_stack_trace` -/

def tracebackMarker : String := "Traceback (most recent call last):"

/-- `stack_frames[-1].code = stripped` — set the `code` of the last frame. -/
def setLastCode (frames : List StackFrame) (c : String) : List StackFrame :=
  match frames.reverse with
  | [] => []
  | last :: rest => (({ last with code := some c } : StackFrame) :: rest).reverse

/-- The `for line in lines` loop of `extract_python_stack_trace`:
skip blank lines, break on an exception-type line, record frame lines,
and record `File `/indented continuation lines. -/
def scanTraceback : List (List Char) → List String → List StackFrame →
    List String × List StackFrame
  | [], sl, sf => (sl, sf)
  | line :: rest, sl, sf =>
    let stripped := trimCh line
    if stripped.isEmpty then scanTraceback rest sl sf
    else if (matchPyErrorLine stripped).isSome then (sl, sf)
    else
      match frameSearch stripped with
      | some fr => scanTraceback rest (sl ++ [String.mk stripped]) (sf ++ [fr])
      | none =>
        if prefixCh "File ".data stripped || prefixCh "  ".data stripped then
          let sl' := sl ++ [String.mk stripped]
          let sf' :=
            if !sf.isEmpty && !prefixCh "File ".data stripped then
              setLastCode sf (String.mk stripped)
            else sf
          scanTraceback rest sl' sf'
        else scanTraceback rest sl sf

/-- `extract_python_stack_trace(log_content)` on a character list:
`PYTHON_TRACEBACK_START.search` (first occurrence), then scan the lines
after the marker. -/
def extractStack (log_content : List Char) : List String × List StackFrame :=
  match searchAfter tracebackMarker.data log_content with
  | none => ([], [])
  | some rest => scanTraceback (splitLinesCh rest) [] []

/-- `extract_python_stack_trace` on a `String`. -/
def extract_python_stack_trace (log_content : String) :
    List String × List StackFrame :=
  extractStack log_content.data

/-! ## `LogParser` helpers -/

/-- One attempt of `NODE_MODULE_ERROR` at a fixed position:
`Cannot find module ['\"]([^'\"]+)['\"]` (case-insensitive literal);
returns the capture together with the text after the match. -/
def nodeModAt (cs : List Char) : Option (List Char × List Char) :=
  match stripLitCi "cannot find module ".data cs with
  | none => none
  | some r0 =>
    match r0 with
    | [] => none
    | q :: r1 =>
      if isQuote q then
        let run := r1.takeWhile (fun c => !(isQuote c))
        if run.isEmpty then none
        else
          match r1.drop run.length with
          | _ :: r2 => some (run, r2)
          | [] => none
      else none

/-- `NODE_MODULE_ERROR.findall` over the whole content (non-overlapping,
resuming after each match end). Fuelled by the input length, which is
enough since every match consumes at least one character. -/
def nodeModuleCapturesAux : Nat → List Char → List (List Char)
  | 0, _ => []
  | _ + 1, [] => []
  | n + 1, c :: cs =>
    match nodeModAt (c :: cs) with
    | some (cap, rest) => cap :: nodeModuleCapturesAux n rest
    | none => nodeModuleCapturesAux n cs

def nodeModuleCaptures (cs : List Char) : List (List Char) :=
  nodeModuleCapturesAux cs.length cs

/-- The lazy capture of `FAILED_STEP`'s `(.+?)(?:\n|##\[endgroup\])`: grow
the capture one character at a time (minimum one), stopping at the first
terminator; returns the capture and the text after the terminator. -/
def captureUntilTerm (acc : List Char) : List Char → Option (List Char × List Char)
  | [] => none
  | c :: cs =>
    if acc.isEmpty then captureUntilTerm (acc ++ [c]) cs
    else if c = '\n' then some (acc, cs)
    else
      match stripLit "##[endgroup]".data (c :: cs) with
      | some r => some (acc, r)
      | none => captureUntilTerm (acc ++ [c]) cs

/-- `FAILED_STEP.findall`: `##\[group\]Run (.+?)(?:\n|##\[endgroup\])` with
`re.DOTALL`, non-overlapping, resuming after each match end. Fuelled by
the input length (every match consumes at least one character). -/
def failedStepCapturesAux : Nat → List Char → List (List Char)
  | 0, _ => []
  | _ + 1, [] => []
  | n + 1, c :: cs =>
    match stripLit "##[group]Run ".data (c :: cs) with
    | some rest =>
      match captureUntilTerm [] rest with
      | some (cap, after) => cap :: failedStepCapturesAux n after
      | none => []
    | none => failedStepCapturesAux n cs

def failedStepCaptures (cs : List Char) : List (List Char) :=
  failedStepCapturesAux cs.length cs

/-- `_find_failed_step(content, error_position)`: the last `Run ...` group
in the preceding content, stripped, first line only. -/
def findFailedStep (preceding : List Char) : Option String :=
  match (failedStepCaptures preceding).getLast? with
  | some g => some (String.mk ((trimCh g).takeWhile (fun c => c ≠ '\n')))
  | none => none

/-- The line-index search of `_extract_error_block`: the first index whose
cumulative character count (line length + 1 each) reaches the error
position; 0 if the loop never breaks. -/
def blockIdx : List (List Char) → Nat → Nat → Nat → Nat
  | [], _, _, _ => 0
  | l :: ls, pos, count, i =>
    if count + l.length + 1 ≥ pos then i
    else blockIdx ls pos (count + l.length + 1) (i + 1)

/-- `_extract_error_block(content, error_position, context_lines=10)`. -/
def extractErrorBlock (lines : List (List Char)) (pos : Nat) : String :=
  let idx := blockIdx lines pos 0 0
  let start := idx - 10
  let stop := min lines.length (idx + 11)
  String.mk (joinNl ((lines.drop start).take (stop - start)))

/-! ## `parse_content` -/

/-- `remove_timestamps(log_content)` — strip the timestamp prefix of
every line and rejoin. -/
def remove_timestamps (log_content : String) : String :=
  String.mk (joinNl ((splitLinesCh log_content.data).map stripTimestampLine))

/-- One `PYTHON_ERROR` hit found by `finditer`, with the data
`parse_content` derives from `match.start()`: the content preceding the
match and the match position. -/
structure PyHit where
  error_type : String
  rawMessage : List Char
  preceding : List Char
  start : Nat
deriving DecidableEq, Repr

/-- The `PYTHON_ERROR.finditer` pass over the cleaned lines, accumulating
each match's preceding content and start position. -/
def gatherPy : List (List Char) → List Char → Nat → List PyHit
  | [], _, _ => []
  | l :: rest, preceding, pos =>
    let here :=
      match matchPyErrorLine l with
      | some (ty, msg) => [⟨ty, msg, preceding, pos⟩]
      | none => []
    here ++ gatherPy rest (preceding ++ l ++ ['\n']) (pos + l.length + 1)

/-- STEP 2 of `parse_content`: one `ParsedError` per `PYTHON_ERROR` match. -/
def pythonStrategy (cleanedLines : List (List Char)) (exit_code : Option Nat) :
    List ParsedError :=
  (gatherPy cleanedLines [] 0).map fun h =>
    let msg := String.mk (trimCh h.rawMessage)
    let st := extractStack h.preceding
    { error_type := h.error_type
      error_message := msg
      error_category := classify_error h.error_type msg
      failed_step := findFailedStep h.preceding
      exit_code := exit_code
      stack_trace := st.1
      stack_frames := st.2
      raw_error_block := extractErrorBlock cleanedLines h.start }

/-- STEP 3 of `parse_content`: npm / Node.js detection, entered only when
STEP 2 produced nothing. -/
def npmStrategy (cleaned : List Char) (cleanedLines : List (List Char))
    (exit_code : Option Nat) : List ParsedError :=
  let npm_errors := cleanedLines.filterMap npmCapture
  let node_module_errors := nodeModuleCaptures cleaned
  let moduleErrs : List ParsedError := node_module_errors.map fun m =>
    { error_type := "ModuleNotFoundError"
      error_message := "Cannot find module '" ++ String.mk m ++ "'"
      error_category := .dependency
      exit_code := exit_code }
  if !npm_errors.isEmpty && moduleErrs.isEmpty then
    moduleErrs ++
      [{ error_type := "NpmError"
         error_message :=
           match npm_errors with
           | m :: _ => String.mk m
           | [] => "npm installation failed"
         error_category := .dependency
         exit_code := exit_code
         relevant_lines := (npm_errors.take 10).map String.mk }]
  else moduleErrs

/-- STEP 4 of `parse_content`: generic `Error:` lines, first 3 matches. -/
def genericStrategy (cleanedLines : List (List Char)) (exit_code : Option Nat) :
    List ParsedError :=
  ((cleanedLines.filterMap genericCapture).take 3).map fun m =>
    { error_type := "Error"
      error_message := String.mk (trimCh m)
      error_category := .unknown
      exit_code := exit_code }

/-- STEP 5 of `parse_content`: `##[error]` markers, skipping the
`Process completed with exit code` noise markers. -/
def ghStrategy (gh_errors : List (List Char)) (exit_code : Option Nat) :
    List ParsedError :=
  (gh_errors.filter
      (fun g => !containsSub g "Process completed with exit code".data)).map
    fun g =>
      { error_type := "GitHubActionsError"
        error_message := String.mk (trimCh g)
        error_category := .unknown
        exit_code := exit_code }

/-- STEP 6 of `parse_content`: primary = first element or none,
`error_count` = length, summary from the primary or the fixed sentinel. -/
def assembleResult (errors : List ParsedError) (total_lines : Nat) :
    LogParseResult :=
  let primary_error :=
    match errors with
    | [] => none
    | e :: _ => some e
  let summary :=
    match primary_error with
    | some pe => pe.error_type ++ ": " ++ takeStr pe.error_message 100
    | none => "No specific error identified (check raw logs)"
  { success := true
    errors := errors
    primary_error := primary_error
    total_lines := total_lines
    error_count := errors.length
    summary := summary }

/-- `LogParser.parse_content(log_content)` — clean the log, run the
detection strategies in priority order (each later one only when the
errors list is still empty), then assemble the result. -/
def parse_content (log_content : String) : LogParseResult :=
  let total_lines := (log_content.data.filter (fun c => c = '\n')).length + 1
  let cleanedLines := (splitLinesCh log_content.data).map stripTimestampLine
  let cleaned := joinNl cleanedLines
  let gh_errors := cleanedLines.filterMap ghCapture
  let exit_code := findExitCode cleaned
  let errors1 := pythonStrategy cleanedLines exit_code
  let errors2 := if errors1.isEmpty then npmStrategy cleaned cleanedLines exit_code
    else errors1
  let errors3 := if errors2.isEmpty then genericStrategy cleanedLines exit_code
    else errors2
  let errors := if errors3.isEmpty && !gh_errors.isEmpty then
      errors3 ++ ghStrategy gh_errors exit_code
    else errors3
  assembleResult errors total_lines

/-- `LogParser.parse_file` / `parse_log_file`, with the file system
modelled as an optional file content (`none` = the path does not exist). -/
def parse_log_file (file_path : String) (content : Option String) :
    LogParseResult :=
  match content with
  | none => { success := false, summary := "Log file not found: " ++ file_path }
  | some c => parse_content c

/-! ## Data model (`state.py`) -/

/-- `WorkflowPhase` — the phase tag of the workflow state. -/
inductive WorkflowPhase where
  | initialized
  | ingesting
  | parsing
  | triaging
  | researching
  | synthesizing
  | completed
  | failed
deriving DecidableEq, Repr

/-- `TriageResult` (from `triage_agent.py`), reduced to the fields the
workflow nodes read: `severity.value` and `root_cause`. -/
structure TriageResult where
  severity : String
  root_cause : String
deriving DecidableEq, Repr

/-- `ResearchResult` (from `research_agent.py`), reduced to the field the
workflow nodes read: the `solutions` list. -/
structure ResearchResult where
  solutions : List String
deriving DecidableEq, Repr

/-- `DebuggingBrief`, reduced to the field the workflow nodes read:
the `fix_suggestions` list. -/
structure DebuggingBrief where
  fix_suggestions : List String
deriving DecidableEq, Repr

/-- `GraphState` — the central state record threaded through the graph
(`completed_at` is reduced to a set/unset marker, since only its
presence is observable here). -/
structure GraphState where
  repo_name : String
  raw_log_content : Option String := none
  log_file_path : Option String := none
  workflow_run_id : Option Nat := none
  parse_result : Option LogParseResult := none
  primary_error : Option ParsedError := none
  triage_result : Option TriageResult := none
  research_result : Option ResearchResult := none
  debugging_brief : Option DebuggingBrief := none
  current_phase : WorkflowPhase := .initialized
  error_message : Option String := none
  messages : List String := []
  completed_at : Option Unit := none
deriving DecidableEq, Repr

/-- `create_initial_state(repo_name)`. -/
def create_initial_state (repo_name : String) : GraphState :=
  { repo_name := repo_name
    current_phase := .initialized
    messages := ["Workflow initialized for repository: " ++ repo_name] }

/-- A partial state update, as returned by the node functions (`none`
means the key is absent from the returned dict). -/
structure StateUpdate where
  raw_log_content : Option String := none
  log_file_path : Option String := none
  parse_result : Option LogParseResult := none
  primary_error : Option ParsedError := none
  triage_result : Option TriageResult := none
  research_result : Option ResearchResult := none
  debugging_brief : Option DebuggingBrief := none
  current_phase : Option WorkflowPhase := none
  error_message : Option String := none
  messages : List String := []
  completed_at : Option Unit := none
deriving DecidableEq, Repr

/-- A present update value overwrites the old optional field. -/
def mergeOpt (upd old : Option α) : Option α :=
  match upd with
  | some v => some v
  | none => old

/-- Merge a partial update into the state: every present key overwrites
its field, and `messages` (annotated with `operator.add`) appends. -/
def applyUpdate (s : GraphState) (u : StateUpdate) : GraphState :=
  { repo_name := s.repo_name
    raw_log_content := mergeOpt u.raw_log_content s.raw_log_content
    log_file_path := mergeOpt u.log_file_path s.log_file_path
    workflow_run_id := s.workflow_run_id
    parse_result := mergeOpt u.parse_result s.parse_result
    primary_error := mergeOpt u.primary_error s.primary_error
    triage_result := mergeOpt u.triage_result s.triage_result
    research_result := mergeOpt u.research_result s.research_result
    debugging_brief := mergeOpt u.debugging_brief s.debugging_brief
    current_phase := u.current_phase.getD s.current_phase
    error_message := mergeOpt u.error_message s.error_message
    messages := s.messages ++ u.messages
    completed_at := mergeOpt u.completed_at s.completed_at }

/-- The data fields of the state — everything a stage can populate for
later stages (the claim "fields populated by an earlier stage"). -/
def dataFields (s : GraphState) :
    Option String × Option String × Option Nat × Option LogParseResult ×
    Option ParsedError × Option TriageResult × Option ResearchResult ×
    Option DebuggingBrief :=
  (s.raw_log_content, s.log_file_path, s.workflow_run_id, s.parse_result,
   s.primary_error, s.triage_result, s.research_result, s.debugging_brief)

/-- Python truthiness of an optional string (`None` and `""` are falsy). -/
def falsyStr : Option String → Bool
  | none => true
  | some s => s.isEmpty

/-! ## Stage node functions (`workflow.py`)

Each node takes its external collaborator as an `Except`-valued function
(`Except.error` models the collaborator raising) and returns the partial
update of the source; the `try/except` of every node means an exception
is absorbed and turned into the failure update. -/

/-- `ingest_node`: the collaborator models `fetch_failed_build_logs` plus
the log file read — `none` is "no failed builds", otherwise the log
content and its path. -/
def ingest_node (fetch : String → Except String (Option (String × String)))
    (state : GraphState) : StateUpdate :=
  match fetch state.repo_name with
  | .error e =>
    { current_phase := some .failed
      error_message := some ("Ingest failed: " ++ e)
      messages := ["Ingest: Error - " ++ e] }
  | .ok none =>
    { current_phase := some .failed
      error_message := some "No failed builds found or build succeeded"
      messages := ["Ingest: No failed builds to analyze"] }
  | .ok (some (log_content, log_path)) =>
    { raw_log_content := some log_content
      log_file_path := some log_path
      current_phase := some .parsing
      messages := ["Ingest: Fetched logs (" ++ toString log_content.length
        ++ " chars)"] }

/-- `parse_node`: the collaborator models reading the file at
`state.log_file_path` (`none` = file does not exist); parsing itself is
the internal `parse_log_file`. -/
def parse_node (readLog : String → Except String (Option String))
    (state : GraphState) : StateUpdate :=
  if falsyStr state.log_file_path then
    { current_phase := some .failed
      error_message := some "No log file to parse"
      messages := ["Parse: No log file available"] }
  else
    match state.log_file_path with
    | none =>
      { current_phase := some .failed
        error_message := some "No log file to parse"
        messages := ["Parse: No log file available"] }
    | some path =>
      match readLog path with
      | .error e =>
        { current_phase := some .failed
          error_message := some ("Parse failed: " ++ e)
          messages := ["Parse: Error - " ++ e] }
      | .ok content =>
        let result := parse_log_file path content
        match result.primary_error with
        | none =>
          { current_phase := some .failed
            error_message := some "No errors found in logs"
            messages := ["Parse: No errors detected in logs"] }
        | some pe =>
          { parse_result := some result
            primary_error := some pe
            current_phase := some .triaging
            messages := ["Parse: Found " ++ toString result.error_count
              ++ " error(s)"] }

/-- `triage_node`: the collaborator models `TriageAgent().analyze`. -/
def triage_node (triage : ParsedError → Except String TriageResult)
    (state : GraphState) : StateUpdate :=
  match state.primary_error with
  | none =>
    { current_phase := some .failed
      error_message := some "No error to triage"
      messages := ["Triage: No error available"] }
  | some err =>
    match triage err with
    | .error e =>
      { current_phase := some .failed
        error_message := some ("Triage failed: " ++ e)
        messages := ["Triage: Error - " ++ e] }
    | .ok result =>
      { triage_result := some result
        current_phase := some .researching
        messages := ["Triage: " ++ result.severity ++ " severity - "
          ++ takeStr result.root_cause 50 ++ "..."] }

/-- `research_node`: the collaborator models `ResearchAgent(...).research`. -/
def research_node
    (research : TriageResult → ParsedError → Except String ResearchResult)
    (state : GraphState) : StateUpdate :=
  match state.triage_result, state.primary_error with
  | some tr, some pe =>
    (match research tr pe with
     | .error e =>
       { current_phase := some .failed
         error_message := some ("Research failed: " ++ e)
         messages := ["Research: Error - " ++ e] }
     | .ok result =>
       { research_result := some result
         current_phase := some .synthesizing
         messages := ["Research: Found " ++ toString result.solutions.length
           ++ " solutions"] })
  | _, _ =>
    { current_phase := some .failed
      error_message := some "Missing triage or error data"
      messages := ["Research: Missing required data"] }

/-- `synthesize_node`: the collaborator models `SynthesisAgent().synthesize`. -/
def synthesize_node
    (synthesize : ParsedError → TriageResult → ResearchResult → String →
      Except String DebuggingBrief)
    (state : GraphState) : StateUpdate :=
  match state.primary_error, state.triage_result, state.research_result with
  | some pe, some tr, some rr =>
    (match synthesize pe tr rr state.repo_name with
     | .error e =>
       { current_phase := some .failed
         error_message := some ("Synthesis failed: " ++ e)
         messages := ["Synthesis: Error - " ++ e] }
     | .ok brief =>
       { debugging_brief := some brief
         current_phase := some .completed
         completed_at := some ()
         messages := ["Synthesis: Generated brief with "
           ++ toString brief.fix_suggestions.length ++ " fixes"] })
  | _, _, _ =>
    { current_phase := some .failed
      error_message := some "Missing data for synthesis"
      messages := ["Synthesis: Missing required data"] }

/-! ## Routing and the compiled graph (`workflow.py`) -/

/-- The five graph nodes added by `create_workflow`. -/
inductive Node where
  | ingest
  | parse
  | triage
  | research
  | synthesize
deriving DecidableEq, Repr

/-- `should_continue` — defined in the source but not wired into
`create_workflow` (the conditional edges use the `route_after_*`
functions below). -/
def should_continue (state : GraphState) : Bool :=
  if state.current_phase = .failed then false
  else if state.current_phase = .completed then false
  else true

/-- `route_after_ingest`: `Literal["parse", "end"]` as `Option Node`. -/
def route_after_ingest (state : GraphState) : Option Node :=
  if state.current_phase = .failed then none else some .parse

/-- `route_after_parse`. -/
def route_after_parse (state : GraphState) : Option Node :=
  if state.current_phase = .failed then none else some .triage

/-- `route_after_triage`. -/
def route_after_triage (state : GraphState) : Option Node :=
  if state.current_phase = .failed then none else some .research

/-- `route_after_research`. -/
def route_after_research (state : GraphState) : Option Node :=
  if state.current_phase = .failed then none else some .synthesize

/-- The edges of `create_workflow`: conditional edges after the first
four nodes, and `synthesize -> END` unconditionally. -/
def nextNode (n : Node) (state : GraphState) : Option Node :=
  match n with
  | .ingest => route_after_ingest state
  | .parse => route_after_parse state
  | .triage => route_after_triage state
  | .research => route_after_research state
  | .synthesize => none

/-- The bundle of external collaborators the stage nodes call. -/
structure Collaborators where
  fetch : String → Except String (Option (String × String))
  readLog : String → Except String (Option String)
  triage : ParsedError → Except String TriageResult
  research : TriageResult → ParsedError → Except String ResearchResult
  synthesize : ParsedError → TriageResult → ResearchResult → String →
    Except String DebuggingBrief

/-- Dispatch one node. -/
def runNode (c : Collaborators) (n : Node) (s : GraphState) : StateUpdate :=
  match n with
  | .ingest => ingest_node c.fetch s
  | .parse => parse_node c.readLog s
  | .triage => triage_node c.triage s
  | .research => research_node c.research s
  | .synthesize => synthesize_node c.synthesize s

/-- The outcome of invoking the compiled graph: the ordered list of
executed nodes, the final state, and whether `END` was reached (rather
than the fuel running out). -/
structure RunResult where
  trace : List Node
  final : GraphState
  finished : Bool
deriving Repr

/-- Execute the compiled graph from a node: run the node, merge its
update, follow the conditional edge, repeat. Fuel plays the role of
LangGraph's recursion limit. -/
def runFrom (c : Collaborators) : Nat → Node → GraphState → RunResult
  | 0, _, s => ⟨[], s, false⟩
  | fuel + 1, n, s =>
    let s' := applyUpdate s (runNode c n s)
    match nextNode n s' with
    | none => ⟨[n], s', true⟩
    | some n' =>
      let r := runFrom c fuel n' s'
      ⟨n :: r.trace, r.final, r.finished⟩

/-- `run_analysis(repo_name)`: invoke the compiled workflow on the
initial state (25 is LangGraph's default recursion limit). -/
def run_analysis (c : Collaborators) (repo_name : String) : RunResult :=
  runFrom c 25 .ingest (create_initial_state repo_name)

/-! ## Stub collaborators for concrete runs -/

/-- A log whose parse finds one `ValueError`. -/
def sampleLog : String := "ValueError: boom"

/-- Collaborators: fetch and read succeed, the triage agent always
raises. -/
def cThrowTriage : Collaborators :=
  { fetch := fun _ => .ok (some (sampleLog, "output/build_log.txt"))
    readLog := fun _ => .ok (some sampleLog)
    triage := fun _ => .error "llm down"
    research := fun _ _ => .error "unused"
    synthesize := fun _ _ _ _ => .error "unused" }

/-- Collaborators: the log source reports no failed build. -/
def cAbsent : Collaborators :=
  { fetch := fun _ => .ok none
    readLog := fun _ => .ok none
    triage := fun _ => .error "unused"
    research := fun _ _ => .error "unused"
    synthesize := fun _ _ _ _ => .error "unused" }

/-! ## Helper lemmas -/

lemma isEmpty_false_of_ne_nil {α : Type} {l : List α} (h : l ≠ []) :
    l.isEmpty = false := by
  cases l with
  | nil => exact absurd rfl h
  | cons a t => rfl

lemma isEmpty_true_of_nil {α : Type} {l : List α} (h : l = []) :
    l.isEmpty = true := by
  subst h; rfl

/-- Stripping a literal from itself plus a suffix leaves the suffix. -/
lemma stripLit_append (p r : List Char) : stripLit p (p ++ r) = some r := by
  induction p with
  | nil => rfl
  | cons c cs ih => simp [stripLit, ih]

/-- `re.search` of a literal that sits at the very start of the text
matches there, whatever follows. -/
lemma searchAfter_self (pat rest : List Char) (h : pat ≠ []) :
    searchAfter pat (pat ++ rest) = some rest := by
  cases pat with
  | nil => exact absurd rfl h
  | cons p ps =>
    have h1 : stripLit (p :: ps) ((p :: ps) ++ rest) = some rest :=
      stripLit_append _ _
    simp only [List.cons_append] at h1
    show searchAfter (p :: ps) (p :: (ps ++ rest)) = some rest
    simp [searchAfter, h1]

/-- `matchPyErrorLine` never matches the empty line. -/
lemma matchPy_nil : matchPyErrorLine [] = none := by decide

/-- The position of a node in the linear chain of `create_workflow`. -/
def nodeIdx : Node → Nat
  | .ingest => 0
  | .parse => 1
  | .triage => 2
  | .research => 3
  | .synthesize => 4

lemma nodeIdx_le_four (n : Node) : nodeIdx n ≤ 4 := by
  cases n <;> simp [nodeIdx]

/-- Every conditional edge of the graph goes one step forward in the
chain (or to `END`). -/
lemma nextNode_idx {n n' : Node} {s : GraphState}
    (h : nextNode n s = some n') : nodeIdx n' = nodeIdx n + 1 := by
  cases n <;> simp only [nextNode, route_after_ingest, route_after_parse,
    route_after_triage, route_after_research] at h <;>
    [skip; skip; skip; skip; exact absurd h (by simp)] <;>
    · split at h
      · exact absurd h (by simp)
      · cases h; rfl

/-- Fuel at least the remaining chain length runs the graph to `END`,
executing at most the remaining stages. -/
lemma runFrom_bounded (c : Collaborators) :
    ∀ (fuel : Nat) (n : Node) (s : GraphState), 5 - nodeIdx n ≤ fuel →
      (runFrom c fuel n s).trace.length ≤ 5 - nodeIdx n ∧
      (runFrom c fuel n s).finished = true := by
  intro fuel
  induction fuel with
  | zero =>
    intro n s h
    have h4 := nodeIdx_le_four n
    omega
  | succ fuel ih =>
    intro n s h
    show (runFrom c (fuel + 1) n s).trace.length ≤ 5 - nodeIdx n ∧ _
    rw [runFrom]
    cases hnext : nextNode n (applyUpdate s (runNode c n s)) with
    | none =>
      have h4 := nodeIdx_le_four n
      constructor
      · show [n].length ≤ 5 - nodeIdx n
        simp; omega
      · rfl
    | some n' =>
      have hidx := nextNode_idx hnext
      have h4 := nodeIdx_le_four n
      have h4' := nodeIdx_le_four n'
      have hih := ih n' (applyUpdate s (runNode c n s)) (by omega)
      constructor
      · show (n :: (runFrom c fuel n' _).trace).length ≤ 5 - nodeIdx n
        simp only [List.length_cons]
        omega
      · exact hih.2

/-- The executed trace is strictly increasing along the chain. -/
lemma runFrom_pairwise (c : Collaborators) :
    ∀ (fuel : Nat) (n : Node) (s : GraphState),
      (runFrom c fuel n s).trace.Pairwise
        (fun a b => nodeIdx a < nodeIdx b) ∧
      ∀ m ∈ (runFrom c fuel n s).trace, nodeIdx n ≤ nodeIdx m := by
  intro fuel
  induction fuel with
  | zero =>
    intro n s
    constructor
    · exact List.Pairwise.nil
    · intro m hm; exact absurd hm (by simp [runFrom])
  | succ fuel ih =>
    intro n s
    rw [runFrom]
    cases hnext : nextNode n (applyUpdate s (runNode c n s)) with
    | none =>
      constructor
      · simp
      · intro m hm
        simp at hm
        subst hm
        exact le_refl _
    | some n' =>
      have hidx := nextNode_idx hnext
      have hih := ih n' (applyUpdate s (runNode c n s))
      constructor
      · refine List.Pairwise.cons ?_ hih.1
        intro m hm
        have := hih.2 m hm
        omega
      · intro m hm
        simp only [List.mem_cons] at hm
        rcases hm with rfl | hm
        · exact le_refl _
        · have := hih.2 m hm
          omega

/-! ## Claim theorems -/

/-- C10: every invocation of the compiled workflow terminates after at
most five stage-node executions — the graph is the linear chain
ingest → parse → triage → research → synthesize in which every
conditional edge goes either forward or to END, so no stage node runs
twice in one run. -/
theorem workflow_at_most_five_stages (c : Collaborators) (s : GraphState)
    (fuel : Nat) (h : 5 ≤ fuel) :
    (runFrom c fuel Node.ingest s).trace.length ≤ 5 ∧
    (runFrom c fuel Node.ingest s).finished = true ∧
    (runFrom c fuel Node.ingest s).trace.Nodup := by
  have hb := runFrom_bounded c fuel Node.ingest s (by simp [nodeIdx]; omega)
  have hp := (runFrom_pairwise c fuel Node.ingest s).1
  refine ⟨by simpa [nodeIdx] using hb.1, hb.2, ?_⟩
  refine hp.imp fun hlt heq => ?_
  subst heq
  exact absurd hlt (lt_irrefl _)

/-- Witness for C10 at a concrete run. -/
theorem workflow_at_most_five_stages_witness :
    5 ≤ 5 ∧ (runFrom cAbsent 5 Node.ingest (create_initial_state "r")).trace.length ≤ 5 :=
  ⟨by decide,
   (workflow_at_most_five_stages cAbsent (create_initial_state "r") 5 (by decide)).1⟩

/-- Two states with identical data-field presence, differing only in the
explicit `current_phase` tag. -/
def c2StateRunning : GraphState :=
  { repo_name := "r", raw_log_content := some "log", current_phase := .parsing }

def c2StateFailed : GraphState :=
  { repo_name := "r", raw_log_content := some "log", current_phase := .failed }

/-- C2 counterexample: the Supervisor's routing is NOT a function of which
data fields are populated — two states with identical data fields but
different `current_phase` tags are routed differently, because the
`route_after_*` functions read the explicit phase tag. -/
theorem supervisor_reads_phase_tag_counterexample :
    dataFields c2StateRunning = dataFields c2StateFailed ∧
    route_after_ingest c2StateRunning = some Node.parse ∧
    route_after_ingest c2StateFailed = none := by
  refine ⟨rfl, ?_, ?_⟩ <;> decide

/-- The fixed forward successor of each stage in the chain. -/
def succNode : Node → Node
  | .ingest => .parse
  | .parse => .triage
  | .triage => .research
  | .research => .synthesize
  | .synthesize => .synthesize

/-- C2 amended: the Supervisor's routing after a stage is a function of
the graph position and the explicit `current_phase` tag alone — to END
when the phase is `failed` (and always after synthesize), otherwise one
step forward along the fixed chain; it does not inspect which data
fields are populated. -/
theorem supervisor_routing_characterization (n : Node) (s : GraphState) :
    nextNode n s =
      if n = Node.synthesize then none
      else if s.current_phase = WorkflowPhase.failed then none
      else some (succNode n) := by
  cases n <;>
    simp [nextNode, route_after_ingest, route_after_parse,
      route_after_triage, route_after_research, succNode]

/-- C3 counterexample: when the log source reports no failed build, the
run does NOT terminate at the ingesting phase with no error_message — it
terminates at the `failed` phase with the error message set. -/
theorem absent_log_source_counterexample :
    (run_analysis cAbsent "r").trace = [Node.ingest] ∧
    (run_analysis cAbsent "r").final.current_phase = WorkflowPhase.failed ∧
    (run_analysis cAbsent "r").final.current_phase ≠ WorkflowPhase.ingesting ∧
    (run_analysis cAbsent "r").final.error_message =
      some "No failed builds found or build succeeded" := by
  refine ⟨?_, ?_, ?_, ?_⟩ <;> decide

/-- C3 amended: when the log-source collaborator returns absent, the run
terminates immediately after the ingest stage, at the `failed` phase,
with `error_message` set to "No failed builds found or build succeeded". -/
theorem absent_log_source_behavior (c : Collaborators) (s : GraphState)
    (fuel : Nat) (h : c.fetch s.repo_name = Except.ok none) :
    (runFrom c (fuel + 1) Node.ingest s).trace = [Node.ingest] ∧
    (runFrom c (fuel + 1) Node.ingest s).finished = true ∧
    (runFrom c (fuel + 1) Node.ingest s).final.current_phase =
      WorkflowPhase.failed ∧
    (runFrom c (fuel + 1) Node.ingest s).final.error_message =
      some "No failed builds found or build succeeded" := by
  rw [runFrom]
  simp [runNode, ingest_node, h, applyUpdate, nextNode, route_after_ingest,
    mergeOpt]

/-- Witness for C3's amended theorem at a concrete collaborator. -/
theorem absent_log_source_behavior_witness :
    cAbsent.fetch (create_initial_state "r").repo_name = Except.ok none ∧
    (runFrom cAbsent 1 Node.ingest (create_initial_state "r")).final.current_phase =
      WorkflowPhase.failed :=
  ⟨rfl,
   (absent_log_source_behavior cAbsent (create_initial_state "r") 0 rfl).2.2.1⟩

/-- C1 counterexample: with an always-throwing triage collaborator, the
run terminates after exactly ONE triage attempt (there is no failure
counter and no redispatch up to a ceiling of 3), and the final phase is
`failed`, not the phase left by the last parse success (`triaging`). -/
theorem triage_no_retry_counterexample :
    (run_analysis cThrowTriage "Yasshu55/Test-repo").trace =
      [Node.ingest, Node.parse, Node.triage] ∧
    (run_analysis cThrowTriage "Yasshu55/Test-repo").trace.count Node.triage = 1 ∧
    (run_analysis cThrowTriage "Yasshu55/Test-repo").trace.count Node.triage ≠ 3 ∧
    (run_analysis cThrowTriage "Yasshu55/Test-repo").final.error_message =
      some "Triage failed: llm down" ∧
    (run_analysis cThrowTriage "Yasshu55/Test-repo").final.current_phase =
      WorkflowPhase.failed ∧
    (run_analysis cThrowTriage "Yasshu55/Test-repo").final.current_phase ≠
      WorkflowPhase.triaging := by
  refine ⟨?_, ?_, ?_, ?_, ?_, ?_⟩ <;> decide

/-- C1 amended: there are no failure counters; a stage failure is
terminal. With a triage collaborator that always throws and a primary
error present, the run from the triage stage executes triage exactly
once, then ends with phase `failed` and `error_message` set to the
triage failure reason. -/
theorem triage_failure_is_terminal (c : Collaborators) (e : String)
    (s : GraphState) (p : ParsedError) (fuel : Nat)
    (htr : ∀ q, c.triage q = Except.error e)
    (hp : s.primary_error = some p) :
    (runFrom c (fuel + 1) Node.triage s).trace = [Node.triage] ∧
    (runFrom c (fuel + 1) Node.triage s).finished = true ∧
    (runFrom c (fuel + 1) Node.triage s).final.current_phase =
      WorkflowPhase.failed ∧
    (runFrom c (fuel + 1) Node.triage s).final.error_message =
      some ("Triage failed: " ++ e) := by
  rw [runFrom]
  simp [runNode, triage_node, hp, htr, applyUpdate, nextNode,
    route_after_triage, mergeOpt]

/-- A sample primary error for concrete workflow states. -/
def samplePE : ParsedError :=
  { error_type := "ValueError", error_message := "boom" }

/-- A state in which parse has succeeded and triage is next. -/
def c1TriageState : GraphState :=
  { repo_name := "r", primary_error := some samplePE,
    current_phase := .triaging }

/-- Witness for C1's amended theorem at a concrete state and collaborator. -/
theorem triage_failure_is_terminal_witness :
    (runFrom cThrowTriage 1 Node.triage c1TriageState).trace = [Node.triage] ∧
    (runFrom cThrowTriage 1 Node.triage c1TriageState).final.error_message =
      some ("Triage failed: " ++ "llm down") :=
  ⟨(triage_failure_is_terminal cThrowTriage "llm down" c1TriageState samplePE 0
      (fun _ => rfl) rfl).1,
   (triage_failure_is_terminal cThrowTriage "llm down" c1TriageState samplePE 0
      (fun _ => rfl) rfl).2.2.2⟩

/-- C9: for every stage function, when its collaborator call raises, the
failure is absorbed into the returned partial update (the node functions
are total): the update sets the error message field, carries exactly the
one-line audit message, and the merged state keeps every data field
(everything populated by earlier stages) unchanged. -/
theorem stage_failure_frame (s : GraphState) (e : String) :
    (∀ f : String → Except String (Option (String × String)),
      f s.repo_name = Except.error e →
      (ingest_node f s).error_message = some ("Ingest failed: " ++ e) ∧
      (ingest_node f s).messages = ["Ingest: Error - " ++ e] ∧
      dataFields (applyUpdate s (ingest_node f s)) = dataFields s) ∧
    (∀ (rl : String → Except String (Option String)) (path : String),
      s.log_file_path = some path → path.isEmpty = false →
      rl path = Except.error e →
      (parse_node rl s).error_message = some ("Parse failed: " ++ e) ∧
      (parse_node rl s).messages = ["Parse: Error - " ++ e] ∧
      dataFields (applyUpdate s (parse_node rl s)) = dataFields s) ∧
    (∀ (tg : ParsedError → Except String TriageResult) (p : ParsedError),
      s.primary_error = some p → tg p = Except.error e →
      (triage_node tg s).error_message = some ("Triage failed: " ++ e) ∧
      (triage_node tg s).messages = ["Triage: Error - " ++ e] ∧
      dataFields (applyUpdate s (triage_node tg s)) = dataFields s) ∧
    (∀ (rs : TriageResult → ParsedError → Except String ResearchResult)
        (t : TriageResult) (p : ParsedError),
      s.triage_result = some t → s.primary_error = some p →
      rs t p = Except.error e →
      (research_node rs s).error_message = some ("Research failed: " ++ e) ∧
      (research_node rs s).messages = ["Research: Error - " ++ e] ∧
      dataFields (applyUpdate s (research_node rs s)) = dataFields s) ∧
    (∀ (sy : ParsedError → TriageResult → ResearchResult → String →
          Except String DebuggingBrief)
        (p : ParsedError) (t : TriageResult) (r : ResearchResult),
      s.primary_error = some p → s.triage_result = some t →
      s.research_result = some r →
      sy p t r s.repo_name = Except.error e →
      (synthesize_node sy s).error_message = some ("Synthesis failed: " ++ e) ∧
      (synthesize_node sy s).messages = ["Synthesis: Error - " ++ e] ∧
      dataFields (applyUpdate s (synthesize_node sy s)) = dataFields s) := by
  refine ⟨?_, ?_, ?_, ?_, ?_⟩
  · intro f hf
    refine ⟨?_, ?_, ?_⟩ <;>
      simp [ingest_node, hf, dataFields, applyUpdate, mergeOpt]
  · intro rl path hpath hne hrl
    have hfal : falsyStr (some path) = false := by
      simpa [falsyStr] using hne
    refine ⟨?_, ?_, ?_⟩ <;>
      simp [parse_node, hfal, hpath, hrl, dataFields, applyUpdate, mergeOpt]
  · intro tg p hp htg
    refine ⟨?_, ?_, ?_⟩ <;>
      simp [triage_node, hp, htg, dataFields, applyUpdate, mergeOpt]
  · intro rs t p ht hp hrs
    refine ⟨?_, ?_, ?_⟩ <;>
      simp [research_node, ht, hp, hrs, dataFields, applyUpdate, mergeOpt]
  · intro sy p t r hp ht hr hsy
    refine ⟨?_, ?_, ?_⟩ <;>
      simp [synthesize_node, hp, ht, hr, hsy, dataFields, applyUpdate, mergeOpt]

/-- A state in which every stage's preconditions hold. -/
def c9State : GraphState :=
  { repo_name := "r"
    raw_log_content := some "ValueError: boom"
    log_file_path := some "output/build_log.txt"
    parse_result := some (parse_content "ValueError: boom")
    primary_error := some samplePE
    triage_result := some { severity := "high", root_cause := "bad value" }
    research_result := some { solutions := ["pin the version"] }
    current_phase := .synthesizing }

/-- Witness for C9: each of the five conjuncts applied at a concrete
state and a concrete always-throwing collaborator. -/
theorem stage_failure_frame_witness :
    (ingest_node (fun _ => Except.error "x") c9State).error_message =
      some ("Ingest failed: " ++ "x") ∧
    (parse_node (fun _ => Except.error "x") c9State).error_message =
      some ("Parse failed: " ++ "x") ∧
    (triage_node (fun _ => Except.error "x") c9State).error_message =
      some ("Triage failed: " ++ "x") ∧
    (research_node (fun _ _ => Except.error "x") c9State).error_message =
      some ("Research failed: " ++ "x") ∧
    (synthesize_node (fun _ _ _ _ => Except.error "x") c9State).error_message =
      some ("Synthesis failed: " ++ "x") :=
  ⟨((stage_failure_frame c9State "x").1 _ rfl).1,
   ((stage_failure_frame c9State "x").2.1 _ "output/build_log.txt" rfl rfl rfl).1,
   ((stage_failure_frame c9State "x").2.2.1 _ samplePE rfl rfl).1,
   ((stage_failure_frame c9State "x").2.2.2.1 _ _ samplePE rfl rfl rfl).1,
   ((stage_failure_frame c9State "x").2.2.2.2 _ samplePE _ _ rfl rfl rfl rfl).1⟩

/-- The assembly step determines count/primary/summary from the errors list. -/
lemma assembleResult_inv (es : List ParsedError) (tl : Nat) :
    (assembleResult es tl).error_count = (assembleResult es tl).errors.length ∧
    ((assembleResult es tl).primary_error = none ↔
      (assembleResult es tl).errors = []) ∧
    (assembleResult es tl).primary_error = (assembleResult es tl).errors.head? := by
  cases es <;> simp [assembleResult]

/-- C4: for every input string, `parse_content` returns a result whose
`error_count` equals the length of the errors sequence, and whose
`primary_error` is absent exactly when the errors sequence is empty and
otherwise equals its first element. -/
theorem parse_result_invariant (log_content : String) :
    (parse_content log_content).error_count =
      (parse_content log_content).errors.length ∧
    ((parse_content log_content).primary_error = none ↔
      (parse_content log_content).errors = []) ∧
    (parse_content log_content).primary_error =
      (parse_content log_content).errors.head? :=
  assembleResult_inv _ _

/-- The cleaned lines `parse_content` computes from its input. -/
def cleanedLinesOf (lc : String) : List (List Char) :=
  (splitLinesCh lc.data).map stripTimestampLine

/-- The cleaned content (the lines rejoined). -/
def cleanedOf (lc : String) : List Char := joinNl (cleanedLinesOf lc)

/-- The `##[error]` captures of the cleaned content. -/
def ghErrorsOf (lc : String) : List (List Char) :=
  (cleanedLinesOf lc).filterMap ghCapture

/-- The globally detected exit code of the cleaned content. -/
def exitCodeOf (lc : String) : Option Nat := findExitCode (cleanedOf lc)

lemma assembleResult_errors (es : List ParsedError) (tl : Nat) :
    (assembleResult es tl).errors = es := rfl

/-- `parse_content`'s errors list written through the named strategy and
capture functions. -/
lemma parse_content_errors (lc : String) :
    (parse_content lc).errors =
      (let e1 := pythonStrategy (cleanedLinesOf lc) (exitCodeOf lc)
       let e2 := if e1.isEmpty then
           npmStrategy (cleanedOf lc) (cleanedLinesOf lc) (exitCodeOf lc)
         else e1
       let e3 := if e2.isEmpty then
           genericStrategy (cleanedLinesOf lc) (exitCodeOf lc)
         else e2
       if e3.isEmpty && !(ghErrorsOf lc).isEmpty then
         e3 ++ ghStrategy (ghErrorsOf lc) (exitCodeOf lc)
       else e3) := rfl

/-- C5: the four detection strategies run in a fixed priority order —
recognized exception-type lines, then package-manager detection, then
generic `Error:` lines (capped at 3 inside `genericStrategy`), then
`##[error]` markers with the exit-code noise phrase excluded (inside
`ghStrategy`) — and each later strategy contributes errors only when
every earlier strategy produced none. -/
theorem detection_strategy_priority (lc : String) :
    (pythonStrategy (cleanedLinesOf lc) (exitCodeOf lc) ≠ [] →
      (parse_content lc).errors =
        pythonStrategy (cleanedLinesOf lc) (exitCodeOf lc)) ∧
    (pythonStrategy (cleanedLinesOf lc) (exitCodeOf lc) = [] →
      npmStrategy (cleanedOf lc) (cleanedLinesOf lc) (exitCodeOf lc) ≠ [] →
      (parse_content lc).errors =
        npmStrategy (cleanedOf lc) (cleanedLinesOf lc) (exitCodeOf lc)) ∧
    (pythonStrategy (cleanedLinesOf lc) (exitCodeOf lc) = [] →
      npmStrategy (cleanedOf lc) (cleanedLinesOf lc) (exitCodeOf lc) = [] →
      genericStrategy (cleanedLinesOf lc) (exitCodeOf lc) ≠ [] →
      (parse_content lc).errors =
        genericStrategy (cleanedLinesOf lc) (exitCodeOf lc)) ∧
    (pythonStrategy (cleanedLinesOf lc) (exitCodeOf lc) = [] →
      npmStrategy (cleanedOf lc) (cleanedLinesOf lc) (exitCodeOf lc) = [] →
      genericStrategy (cleanedLinesOf lc) (exitCodeOf lc) = [] →
      (parse_content lc).errors =
        ghStrategy (ghErrorsOf lc) (exitCodeOf lc)) := by
  rw [parse_content_errors]
  refine ⟨?_, ?_, ?_, ?_⟩
  · intro h1
    simp [isEmpty_false_of_ne_nil h1]
  · intro h1 h2
    simp [h1, isEmpty_false_of_ne_nil h2]
  · intro h1 h2 h3
    simp [h1, h2, isEmpty_false_of_ne_nil h3]
  · intro h1 h2 h3
    by_cases hg : ghErrorsOf lc = []
    · simp [h1, h2, h3, hg, ghStrategy]
    · simp [h1, h2, h3, isEmpty_false_of_ne_nil hg]

/-- Witness for C5: the first conjunct applied at an input whose python
strategy is non-empty. -/
theorem detection_strategy_priority_witness :
    pythonStrategy (cleanedLinesOf "ValueError: boom")
      (exitCodeOf "ValueError: boom") ≠ [] ∧
    (parse_content "ValueError: boom").errors =
      pythonStrategy (cleanedLinesOf "ValueError: boom")
        (exitCodeOf "ValueError: boom") :=
  ⟨by decide,
   (detection_strategy_priority "ValueError: boom").1 (by decide)⟩

/-- C8: for every input with no recognizable error pattern (all four
detection strategies produce nothing), `parse_content` returns
success=true, error_count=0, no primary error, and the fixed
"no specific error identified" summary sentinel. -/
theorem no_error_pattern_result (lc : String)
    (h1 : pythonStrategy (cleanedLinesOf lc) (exitCodeOf lc) = [])
    (h2 : npmStrategy (cleanedOf lc) (cleanedLinesOf lc) (exitCodeOf lc) = [])
    (h3 : genericStrategy (cleanedLinesOf lc) (exitCodeOf lc) = [])
    (h4 : ghStrategy (ghErrorsOf lc) (exitCodeOf lc) = []) :
    (parse_content lc).success = true ∧
    (parse_content lc).error_count = 0 ∧
    (parse_content lc).primary_error = none ∧
    (parse_content lc).summary =
      "No specific error identified (check raw logs)" := by
  have he : (parse_content lc).errors = [] := by
    rw [parse_content_errors]
    by_cases hg : ghErrorsOf lc = [] <;>
      simp [h1, h2, h3, h4, hg]
  have hr : parse_content lc =
      assembleResult (parse_content lc).errors (parse_content lc).total_lines := rfl
  rw [hr, he]
  refine ⟨rfl, rfl, rfl, rfl⟩

/-- Witness for C8 at the empty input string (Scenario C). -/
theorem no_error_pattern_result_witness :
    (pythonStrategy (cleanedLinesOf "") (exitCodeOf "") = [] ∧
     npmStrategy (cleanedOf "") (cleanedLinesOf "") (exitCodeOf "") = [] ∧
     genericStrategy (cleanedLinesOf "") (exitCodeOf "") = [] ∧
     ghStrategy (ghErrorsOf "") (exitCodeOf "") = []) ∧
    (parse_content "").success = true ∧
    (parse_content "").error_count = 0 :=
  ⟨⟨by decide, by decide, by decide, by decide⟩,
   (no_error_pattern_result "" (by decide) (by decide) (by decide) (by decide)).1,
   (no_error_pattern_result "" (by decide) (by decide) (by decide) (by decide)).2.1⟩

/-- The text preceding the error of spec Scenario A: a traceback whose
frame line is immediately followed by the indented source line `    x`. -/
def precedingA : String :=
  "Traceback (most recent call last):\n  File \"a.py\", line 3, in f\n    x\n"

/-- C7: the emitted StackFrame does NOT carry the following indented line
as its `code` field. The loop strips each line before testing it, so a
stripped line can never start with two spaces and the branch that would
assign `stack_frames[-1].code` is unreachable: the frame's `code` stays
`None`, and the indented source line is dropped entirely. -/
theorem frame_code_never_attached :
    (extract_python_stack_trace precedingA).2 =
      [{ file := some "a.py", line_number := some 3, function := some "f",
         code := none }] ∧
    (extract_python_stack_trace precedingA).1 = ["File \"a.py\", line 3, in f"] ∧
    (extract_python_stack_trace precedingA).2 ≠
      [{ file := some "a.py", line_number := some 3, function := some "f",
         code := some "x" }] := by
  refine ⟨?_, ?_, ?_⟩ <;> decide

/-- A log with two traceback-start markers before the current error: an
earlier complete traceback (frame in `a.py`, ending in its own
ValueError line) followed by a second, most recent traceback (frame in
`b.py`). -/
def twoTracebacks : String :=
  "Traceback (most recent call last):\n  File \"a.py\", line 1, in f\nValueError: first\nTraceback (most recent call last):\n  File \"b.py\", line 2, in g\n"

/-- Modelled from the spec: "locate the most recent traceback-start
marker" — the text after the LAST occurrence of the pattern (the code
uses `re.search`, which finds the first). -/
def lastAfterAux (pat : List Char) : List Char → Option (List Char) →
    Option (List Char)
  | [], best => best
  | c :: cs, best =>
    match stripLit pat (c :: cs) with
    | some r => lastAfterAux pat cs (some r)
    | none => lastAfterAux pat cs best

/-- Modelled from the spec: stack extraction that scans forward from the
most recent (last) traceback-start marker, with the same scan loop. -/
def extractFromLastMarker (log_content : List Char) :
    List String × List StackFrame :=
  match lastAfterAux tracebackMarker.data log_content none with
  | none => ([], [])
  | some rest => scanTraceback (splitLinesCh rest) [] []

/-- C6 counterexample: with two traceback markers in the preceding text,
the code's extraction (`re.search` = FIRST marker) returns the frame of
the FIRST traceback (`a.py`), while extraction from the most recent
marker, as the claim states, would return the frame of the second
(`b.py`): the claim fails on this input. -/
theorem stack_extraction_first_marker_counterexample :
    (extract_python_stack_trace twoTracebacks).2 =
      [{ file := some "a.py", line_number := some 1, function := some "f",
         code := none }] ∧
    (extractFromLastMarker twoTracebacks.data).2 =
      [{ file := some "b.py", line_number := some 2, function := some "g",
         code := none }] ∧
    extract_python_stack_trace twoTracebacks ≠
      extractFromLastMarker twoTracebacks.data := by
  refine ⟨?_, ?_, ?_⟩ <;> decide

/-- C6 amended: stack extraction scans from the FIRST traceback-start
marker (a marker at the start of the text is where the scan begins,
whatever follows), and the scan stops as soon as a line matches the
exception-type pattern — lines after the first such line, including any
later tracebacks, contribute nothing. -/
theorem stack_extraction_first_marker_and_stop :
    (∀ (pre : List (List Char)) (errLine : List Char)
        (suf : List (List Char)) (sl : List String) (sf : List StackFrame),
      (matchPyErrorLine (trimCh errLine)).isSome = true →
      (∀ l ∈ pre, (matchPyErrorLine (trimCh l)).isSome = false) →
      scanTraceback (pre ++ errLine :: suf) sl sf = scanTraceback pre sl sf) ∧
    (∀ rest : List Char,
      extractStack (tracebackMarker.data ++ rest) =
        scanTraceback (splitLinesCh rest) [] []) := by
  constructor
  · intro pre
    induction pre with
    | nil =>
      intro errLine suf sl sf h _
      have hne : (trimCh errLine).isEmpty = false := by
        cases hE : trimCh errLine with
        | nil => rw [hE, matchPy_nil] at h; exact absurd h (by simp)
        | cons a t => rfl
      simp [scanTraceback, hne, h]
    | cons l pre' ih =>
      intro errLine suf sl sf h hall
      have hl : (matchPyErrorLine (trimCh l)).isSome = false :=
        hall l (by simp)
      have hall' : ∀ x ∈ pre', (matchPyErrorLine (trimCh x)).isSome = false :=
        fun x hx => hall x (by simp [hx])
      simp only [List.cons_append, scanTraceback, hl]
      by_cases hemp : (trimCh l).isEmpty = true
      · rw [if_pos hemp, if_pos hemp]
        exact ih errLine suf sl sf h hall'
      · rw [if_neg hemp, if_neg hemp]
        simp only [Bool.false_eq_true, if_false]
        cases hfs : frameSearch (trimCh l) with
        | some fr =>
          simp only [hfs]
          exact ih errLine suf _ _ h hall'
        | none =>
          simp only [hfs]
          by_cases hpf : (prefixCh "File ".data (trimCh l)
              || prefixCh "  ".data (trimCh l)) = true
          · rw [if_pos hpf, if_pos hpf]
            exact ih errLine suf _ _ h hall'
          · rw [if_neg hpf, if_neg hpf]
            exact ih errLine suf _ _ h hall'
  · intro rest
    have hm : tracebackMarker.data ≠ [] := by decide
    simp [extractStack, searchAfter_self _ _ hm]

/-- Witness for C6's amended theorem: the scan of a frame line followed
by an error line and junk equals the scan that stops at the error line. -/
theorem stack_extraction_first_marker_and_stop_witness :
    (matchPyErrorLine (trimCh "ValueError: first".data)).isSome = true ∧
    scanTraceback (["  File \"a.py\", line 1, in f".data] ++
        "ValueError: first".data :: ["junk after".data]) [] [] =
      scanTraceback ["  File \"a.py\", line 1, in f".data] [] [] :=
  ⟨by decide,
   stack_extraction_first_marker_and_stop.1
     ["  File \"a.py\", line 1, in f".data] "ValueError: first".data
     ["junk after".data] [] [] (by decide) (by decide)⟩
